import Mathlib

/-!
Verification development for the kwark-sync repository: a shallow embedding
of the mapping store (`mapping_store.py`), the sync orchestrator main loop
(`sync_courses.py`), and the webhook handler (`webhook_handler.py`),
together with theorems settling the specification's claims.

External HTTP effects (the two LMS APIs) are modelled as oracles; the
python-level data and control flow of the embedded functions follows the
source line by line.
-/

namespace KwarkSync

/-- A JSON value, as produced by `json.load` / consumed by `json.dump`.
Numbers are modelled as integers (course and step ids are integral). -/
inductive JVal where
  | jnull : JVal
  | jbool : Bool → JVal
  | jnum : Int → JVal
  | jstr : String → JVal
  | jarr : List JVal → JVal
  | jobj : List (String × JVal) → JVal
deriving Repr

/-- A python value that callers pass as a course id: an int or a str. -/
inductive PyVal where
  | int : Int → PyVal
  | str : String → PyVal
deriving Repr, DecidableEq

/-- The python exceptions the embedded code can raise. -/
inductive PyExc where
  | valueError : PyExc
  | typeError : PyExc
  | attributeError : PyExc
deriving Repr, DecidableEq

/-- Python `str()` on a course id: ints render in decimal, strs unchanged. -/
def pyStr : PyVal → String
  | .int n => toString n
  | .str s => s

/-- Python truthiness of a course-id value: `0` and `""` are falsy. -/
def pyTruthy : PyVal → Bool
  | .int n => n != 0
  | .str s => s != ""

/-- Decimal digit parse of a nonempty list of chars; `none` otherwise. -/
def decDigits : List Char → Option Nat
  | [] => none
  | cs =>
    if cs.all (fun c => c.isDigit) then
      some (cs.foldl (fun acc c => acc * 10 + (c.toNat - 48)) 0)
    else none

/-- Python `int()` on a course id: succeeds on ints and on decimal strings
(optional sign); raises `ValueError` (here: `none`) otherwise. -/
def pyInt : PyVal → Option Int
  | .int n => some n
  | .str s =>
    match s.data with
    | '-' :: rest => (decDigits rest).map (fun n => -(n : Int))
    | '+' :: rest => (decDigits rest).map (fun n => (n : Int))
    | cs => (decDigits cs).map (fun n => (n : Int))

/-- Python truthiness of a JSON value (`if not riseup_step_id:` etc.). -/
def jTruthy : JVal → Bool
  | .jnull => false
  | .jbool b => b
  | .jnum n => n != 0
  | .jstr s => s != ""
  | .jarr xs => !xs.isEmpty
  | .jobj kvs => !kvs.isEmpty

/-- The state of the mapping file on disk: absent, unreadable (IO error on
open/read), unparsable (JSON decode error), or holding a parsed JSON value. -/
inductive FileContent where
  | absent : FileContent
  | ioError : FileContent
  | malformed : FileContent
  | json : JVal → FileContent
deriving Repr

/-- `mapping_store.load_mapping`: missing file, IO error and JSON decode
error each fall back to `{}`; otherwise the parsed JSON value is returned
as is (whatever its shape). -/
def load_mapping : FileContent → JVal
  | .absent => .jobj []
  | .ioError => .jobj []
  | .malformed => .jobj []
  | .json v => v

/-- `mapping_store.save_mapping`: overwrites the file with the serialized
value; an IO error on write is swallowed and leaves the file unchanged.
`wf` is true when the write fails. -/
def save_mapping (v : JVal) (fc : FileContent) (wf : Bool) : FileContent :=
  if wf then fc else .json v

/-- Python dict lookup `d.get(k)` on an association list (insertion order). -/
def dictGet : List (String × JVal) → String → Option JVal
  | [], _ => none
  | (k', v') :: rest, k => if k' = k then some v' else dictGet rest k

/-- Python dict assignment `d[k] = v`: replace in place if the key exists,
append otherwise (dicts preserve insertion order). -/
def dictSet : List (String × JVal) → String → JVal → List (String × JVal)
  | [], k, v => [(k, v)]
  | (k', v') :: rest, k, v =>
    if k' = k then (k, v) :: rest else (k', v') :: dictSet rest k v

/-- Key membership `k in d` for a dict. -/
def hasKey (kvs : List (String × JVal)) (k : String) : Bool :=
  kvs.any (fun p => p.1 = k)

/-- `mapping_store.add_or_update_mapping`: load, set `mapping[str(id)]`,
save. When the loaded value is not a dict, the item assignment raises
`TypeError`. -/
def add_or_update_mapping (cid : PyVal) (step : JVal) (fc : FileContent)
    (wf : Bool) : Except PyExc FileContent :=
  match load_mapping fc with
  | .jobj kvs => .ok (save_mapping (.jobj (dictSet kvs (pyStr cid) step)) fc wf)
  | _ => .error .typeError

/-- `mapping_store.get_riseup_step_id`: load, then `mapping.get(str(id))`.
When the loaded value is not a dict, `.get` raises `AttributeError`. -/
def get_riseup_step_id (cid : PyVal) (fc : FileContent) :
    Except PyExc (Option JVal) :=
  match load_mapping fc with
  | .jobj kvs => .ok (dictGet kvs (pyStr cid))
  | _ => .error .attributeError

/-- Whether `needle` occurs as a contiguous sublist of `hay`. -/
def containsSub (needle : List Char) : List Char → Bool
  | [] => needle.isEmpty
  | c :: rest => needle.isPrefixOf (c :: rest) || containsSub needle rest

/-- Python `in` on the snapshot loaded from the mapping file
(`str(lb_id) in existing_mapping`): key membership for a dict, element
membership for a list, substring test for a str, `TypeError` otherwise. -/
def pyIn (k : String) : JVal → Except PyExc Bool
  | .jobj kvs => .ok (hasKey kvs k)
  | .jarr xs => .ok (xs.any (fun x => match x with | .jstr s => s = k | _ => false))
  | .jstr t => .ok (containsSub k.data t.data)
  | _ => .error .typeError

/-- A catalog entry, as far as the orchestrator's own control flow reads
it: the `id` field (`None` when absent). All other fields only feed the
external structure-creation calls, which are an oracle here. -/
structure Desc where
  id : Option PyVal
deriving Repr, DecidableEq

/-- Result of the export-request API call (`_make_request`): response data
(`none` models a 204 / python `None`) or a raised `RequestException`. -/
inductive ExportRes where
  | ok : Option JVal → ExportRes
  | exc : ExportRes
deriving Repr

/-- Observable external actions of one orchestrator run. `syncEvt` marks a
call to `sync_course_structure` (which immediately issues Target LMS
creation calls), `mapWriteEvt` a persisted mapping entry, `exportEvt` the
SCORM-export POST for the given integer id. -/
inductive Event where
  | syncEvt : Desc → Event
  | mapWriteEvt : String → JVal → Event
  | exportEvt : Int → Event
deriving Repr

/-- The external world of one run: the outcome of `sync_course_structure`
per descriptor (it catches every exception internally, so `Option` is its
exact interface: `none` is python `None`), the export API per course id,
and whether mapping-file writes fail. -/
structure World where
  sync : Desc → Option JVal
  exportApi : Int → ExportRes
  writeFails : Bool

/-- `learningbox_client.request_scorm_export`: builds the payload with
`int(course_id)` (raising `ValueError` on a non-numeric id, outside the
`try`), POSTs it, and catches only `RequestException`, returning `None`.
The event list records whether the POST was issued. -/
def request_scorm_export (cid : PyVal) (w : World) :
    Except PyExc (List Event × Option JVal) :=
  match pyInt cid with
  | none => .error .valueError
  | some n =>
    match w.exportApi n with
    | .ok d => .ok ([.exportEvt n], d)
    | .exc => .ok ([.exportEvt n], none)

/-- The mutable state of the orchestrator loop: the three counters, the
mapping file, and the trace of external actions so far. -/
structure LoopState where
  succ : Nat
  fail : Nat
  skip : Nat
  fcontent : FileContent
  trace : List Event

/-- One iteration of the `for lb_course in lb_catalog:` loop in
`sync_courses.main`. `snapshot` is the mapping loaded once before the
loop; the skip check consults it, never the live file. An exception not
caught by the source propagates as `.error`. -/
def processOne (snapshot : JVal) (w : World) (d : Desc) (s : LoopState) :
    Except PyExc LoopState :=
  match d.id with
  | none => .ok { s with fail := s.fail + 1 }
  | some v =>
    if pyTruthy v = false then .ok { s with fail := s.fail + 1 }
    else
      match pyIn (pyStr v) snapshot with
      | .error e => .error e
      | .ok true => .ok { s with skip := s.skip + 1 }
      | .ok false =>
        let s1 : LoopState := { s with trace := s.trace ++ [.syncEvt d] }
        match w.sync d with
        | none => .ok { s1 with fail := s1.fail + 1 }
        | some sv =>
          if jTruthy sv = false then .ok { s1 with fail := s1.fail + 1 }
          else
            match add_or_update_mapping v sv s1.fcontent w.writeFails with
            | .error e => .error e
            | .ok fc' =>
              let s2 : LoopState :=
                { s1 with fcontent := fc',
                          trace := s1.trace ++ [.mapWriteEvt (pyStr v) sv] }
              match request_scorm_export v w with
              | .error e => .error e
              | .ok (evts, res) =>
                let s3 : LoopState := { s2 with trace := s2.trace ++ evts }
                match res with
                | some _ => .ok { s3 with succ := s3.succ + 1 }
                | none => .ok { s3 with fail := s3.fail + 1 }

/-- The whole catalog loop: iterate `processOne`, aborting on an uncaught
exception. -/
def processAll (snapshot : JVal) (w : World) :
    List Desc → LoopState → Except PyExc LoopState
  | [], s => .ok s
  | d :: ds, s =>
    match processOne snapshot w d s with
    | .error e => .error e
    | .ok s' => processAll snapshot w ds s'

/-- Outcome of `sync_courses.main` after initialization: early return on
an empty catalog, an uncaught exception aborting the run before the final
tally, or completion with the tally printed. -/
inductive RunOutcome where
  | emptyCatalog : RunOutcome
  | aborted : PyExc → RunOutcome
  | completed : LoopState → RunOutcome

/-- `sync_courses.main` from the snapshot load onward: load the mapping
once, return early if the catalog is empty, then run the loop and print
the tally. -/
def runSync (fc0 : FileContent) (catalog : List Desc) (w : World) :
    RunOutcome :=
  let snapshot := load_mapping fc0
  if catalog.isEmpty then .emptyCatalog
  else
    match processAll snapshot w catalog
        { succ := 0, fail := 0, skip := 0, fcontent := fc0, trace := [] } with
    | .error e => .aborted e
    | .ok s => .completed s

/-- Value of one base64 alphabet character, `none` for anything else. -/
def b64CharVal (c : Char) : Option Nat :=
  if 'A' ≤ c ∧ c ≤ 'Z' then some (c.toNat - 65)
  else if 'a' ≤ c ∧ c ≤ 'z' then some (c.toNat - 97 + 26)
  else if '0' ≤ c ∧ c ≤ '9' then some (c.toNat - 48 + 52)
  else if c = '+' then some 62
  else if c = '/' then some 63
  else none

/-- How `base64.b64decode` fails: `binasciiError` is a raised
`binascii.Error` (caught by the handler's specific clause), `nonAscii` is
the plain `ValueError` that `base64._bytes_from_decode_data` raises when a
str argument cannot be ASCII-encoded (not a `binascii.Error`, so the
handler's specific clause does not catch it). -/
inductive B64Err where
  | binasciiError : B64Err
  | nonAscii : B64Err
deriving Repr, DecidableEq

/-- The scanning loop of `binascii.a2b_base64` in its default non-strict
mode, translated from CPython: `quadPos` counts data characters in the
current quad and `leftchar` holds their pending bits; a `=` seen with at
least two data characters in the quad counts toward `pads` and, once the
quad is complete (`quadPos + pads + 1 ≥ 4`), ends the decode successfully
with the bytes emitted so far (anything after is ignored); a `=` earlier
in a quad is skipped, as is any character outside the alphabet; a data
character resets `pads`. Input ending mid-quad raises `binascii.Error`. -/
def a2b_base64 : List Char → Nat → Nat → Nat → List Nat →
    Except B64Err (List Nat)
  | [], quadPos, _, _, out =>
    if quadPos = 0 then .ok out.reverse else .error .binasciiError
  | c :: rest, quadPos, leftchar, pads, out =>
    if c = '=' then
      if 2 ≤ quadPos then
        if 4 ≤ quadPos + (pads + 1) then .ok out.reverse
        else a2b_base64 rest quadPos leftchar (pads + 1) out
      else a2b_base64 rest quadPos leftchar pads out
    else
      match b64CharVal c with
      | none => a2b_base64 rest quadPos leftchar pads out
      | some v =>
        match quadPos with
        | 0 => a2b_base64 rest 1 v 0 out
        | 1 => a2b_base64 rest 2 (v % 16) 0 ((leftchar * 4 + v / 16) :: out)
        | 2 => a2b_base64 rest 3 (v % 4) 0 ((leftchar * 16 + v / 4) :: out)
        | _ => a2b_base64 rest 0 0 0 ((leftchar * 64 + v) :: out)

/-- `base64.b64decode` on a str argument with its default
`validate=False`: the string is first ASCII-encoded (a non-ASCII
character raises `ValueError`), then fed to `binascii.a2b_base64` in
non-strict mode. -/
def b64decode (s : String) : Except B64Err (List Nat) :=
  if s.data.all (fun c => c.toNat < 128) then a2b_base64 s.data 0 0 0 []
  else .error .nonAscii

/-- Result of the Target LMS SCORM upload call
(`riseup_client.upload_scorm_content`): a JSON response, or a raised
`RequestException`/`ConnectionError`. -/
inductive UploadRes where
  | ok : JVal → UploadRes
  | exc : UploadRes

/-- The webhook handler's external world: the upload call, keyed by the
step id, the decoded bytes and the filename. -/
structure WWorld where
  upload : JVal → List Nat → String → UploadRes

/-- Observable actions of one webhook request: the base64 decode attempt
and the upload call (with its target step id, bytes and filename). -/
inductive WEvent where
  | decodeEvt : WEvent
  | uploadEvt : JVal → List Nat → String → WEvent

/-- The handler's HTTP response (status code, the `status` and `message`
fields of the JSON body) together with the actions it performed. -/
structure HResult where
  status : Nat
  bstatus : String
  bmessage : String
  events : List WEvent

/-- Lookup of a field in the `parse_qs` result (a dict from field name to
list of values). -/
def lookupForm (parsed : List (String × List String)) (k : String) :
    Option (List String) :=
  match parsed with
  | [] => none
  | (k', vs) :: rest => if k' = k then some vs else lookupForm rest k

/-- `webhook_handler.handle_learningbox_webhook` from the parsed form data
onward (`parsed` is the `parse_qs` result; the handler's content-type
check only logs). Missing or empty required fields give 400; a missing
mapping entry (or a falsy mapped value) gives the 200 acknowledgment; a
`binascii.Error` from the base64 decode gives 400, while the plain
`ValueError` raised for a non-ASCII payload is not a `binascii.Error`, so
it falls through to the outer `except Exception` and gives 500; an upload
failure gives 502; an `AttributeError` from `.get` on a non-dict store
also reaches the outer handler and gives 500. -/
def handle_learningbox_webhook (parsed : List (String × List String))
    (fc : FileContent) (w : WWorld) : HResult :=
  match lookupForm parsed "modules[0][id]",
        lookupForm parsed "modules[0][zip]" with
  | some (cid :: _), some (zipb :: _) =>
    match get_riseup_step_id (.str cid) fc with
    | .error _ =>
      { status := 500, bstatus := "error",
        bmessage := "Internal server error", events := [] }
    | .ok r =>
      match r with
      | none =>
        { status := 200, bstatus := "acknowledged_error",
          bmessage := "Mapping not found", events := [] }
      | some v =>
        if jTruthy v = false then
          { status := 200, bstatus := "acknowledged_error",
            bmessage := "Mapping not found", events := [] }
        else
          match b64decode zipb with
          | .error .binasciiError =>
            { status := 400, bstatus := "error",
              bmessage := "Invalid Base64 data", events := [.decodeEvt] }
          | .error .nonAscii =>
            { status := 500, bstatus := "error",
              bmessage := "Internal server error", events := [.decodeEvt] }
          | .ok bs =>
            let fname := "lb_" ++ cid ++ "_scorm.zip"
            match w.upload v bs fname with
            | .ok _ =>
              { status := 200, bstatus := "success",
                bmessage := "SCORM uploaded to RiseUp",
                events := [.decodeEvt, .uploadEvt v bs fname] }
            | .exc =>
              { status := 502, bstatus := "error",
                bmessage := "Failed to upload SCORM to RiseUp",
                events := [.decodeEvt, .uploadEvt v bs fname] }
  | _, _ =>
    { status := 400, bstatus := "error",
      bmessage := "Missing required data fields", events := [] }

/-! Concrete fixtures used by witness theorems. -/

/-- A world whose structure creation always yields step id 7 and whose
export API always succeeds. -/
def w0 : World :=
  { sync := fun _ => some (.jnum 7),
    exportApi := fun _ => .ok (some .jnull), writeFails := false }

/-- A world whose structure creation yields step id 9 and whose export
API always raises `RequestException`. -/
def wExpFail : World :=
  { sync := fun _ => some (.jnum 9), exportApi := fun _ => .exc,
    writeFails := false }

/-- A webhook world whose upload call always succeeds. -/
def wUpOk : WWorld := { upload := fun _ _ _ => .ok .jnull }

/-- A webhook world whose upload call always raises. -/
def wUpExc : WWorld := { upload := fun _ _ _ => .exc }

/-- Parsed form data of a well-formed webhook request for course 42 with
payload `QUJD` (base64 of the bytes `ABC`). -/
def parsed0 : List (String × List String) :=
  [("modules[0][id]", ["42"]), ("modules[0][zip]", ["QUJD"])]

/-- Parsed form data for course 42 whose payload `QQ` is not valid base64
(two data characters with no padding: `binascii.Error`). -/
def parsedBadZip : List (String × List String) :=
  [("modules[0][id]", ["42"]), ("modules[0][zip]", ["QQ"])]

/-- Parsed form data for course 42 whose payload contains a non-ASCII
character, making `base64.b64decode` raise a plain `ValueError`. -/
def parsedNonAscii : List (String × List String) :=
  [("modules[0][id]", ["42"]), ("modules[0][zip]", ["é"])]

/-! Helper lemmas. -/

/-- Looking up a key right after setting it yields the value just set. -/
theorem dictGet_dictSet (m : List (String × JVal)) (k : String) (v : JVal) :
    dictGet (dictSet m k v) k = some v := by
  induction m with
  | nil => simp [dictSet, dictGet]
  | cons p rest ih =>
    obtain ⟨k', v'⟩ := p
    by_cases h : k' = k
    · simp [dictSet, dictGet, h]
    · simp [dictSet, dictGet, h, ih]

/-- C1: for every course id `x` and step id `y`, `add_or_update_mapping x y`
followed by `get_riseup_step_id x` returns `y`, whether `x` is supplied to
either call as an integer or as its decimal string form, because both
operations normalize the key with `str()`. Stated for any store whose
loaded mapping is a dict and whose write succeeds. -/
theorem C1_upsert_then_get_normalized (x : Int) (y : JVal) (fc : FileContent)
    (m : List (String × JVal)) (hm : load_mapping fc = .jobj m)
    (a b : PyVal) (ha : a = .int x ∨ a = .str (toString x))
    (hb : b = .int x ∨ b = .str (toString x)) :
    ∃ fc', add_or_update_mapping a y fc false = .ok fc' ∧
      get_riseup_step_id b fc' = .ok (some y) := by
  have hsa : pyStr a = toString x := by rcases ha with rfl | rfl <;> rfl
  have hsb : pyStr b = toString x := by rcases hb with rfl | rfl <;> rfl
  refine ⟨.json (.jobj (dictSet m (toString x) y)), ?_, ?_⟩
  · simp [add_or_update_mapping, hm, hsa, save_mapping]
  · simp [get_riseup_step_id, load_mapping, hsb, dictGet_dictSet]

/-- Witness for C1 at course id 123, step id 987, an absent store, the id
supplied as an int to the upsert and as the string "123" to the get. -/
theorem C1_upsert_then_get_normalized_witness :
    ∃ fc', add_or_update_mapping (.int 123) (.jnum 987) .absent false = .ok fc' ∧
      get_riseup_step_id (.str "123") fc' = .ok (some (.jnum 987)) :=
  C1_upsert_then_get_normalized 123 (.jnum 987) .absent [] rfl _ _
    (.inl rfl) (.inr rfl)

/-- C9: when the file parses as valid JSON of any shape, `load_mapping`
returns the parsed value unchanged — in particular a JSON list is not
replaced by the empty mapping; the fallback applies only to the absent,
unreadable and unparsable cases. -/
theorem C9_load_mapping_wrong_shape_passthrough :
    (∀ v : JVal, load_mapping (.json v) = v) ∧
    load_mapping (.json (.jarr [.jnum 1])) ≠ .jobj [] ∧
    load_mapping .absent = .jobj [] ∧ load_mapping .ioError = .jobj [] ∧
    load_mapping .malformed = .jobj [] :=
  ⟨fun _ => rfl, fun h => JVal.noConfusion h, rfl, rfl, rfl⟩

/-- C10: a descriptor whose id field is present but falsy (0 or the empty
string) takes the missing-id branch: the failed counter is incremented by
one and nothing else changes — no Target LMS call, no mapping write. -/
theorem C10_falsy_id_counts_failed (snapshot : JVal) (w : World) (d : Desc)
    (s : LoopState) (v : PyVal) (hid : d.id = some v)
    (hv : pyTruthy v = false) :
    processOne snapshot w d s = .ok { s with fail := s.fail + 1 } := by
  simp [processOne, hid, hv]

/-- Witness for C10 at a descriptor whose id is the integer 0. -/
theorem C10_falsy_id_counts_failed_witness :
    processOne (.jobj []) w0 ⟨some (.int 0)⟩
      ⟨0, 0, 0, .absent, []⟩ = .ok ⟨0, 1, 0, .absent, []⟩ :=
  C10_falsy_id_counts_failed (.jobj []) w0 ⟨some (.int 0)⟩
    ⟨0, 0, 0, .absent, []⟩ (.int 0) rfl rfl

/-- C6: a catalog entry whose id is already a key of the snapshot loaded
before the run increments the skip counter by one and nothing else — no
Target LMS call, no mapping write; and when the id is not a key of the
snapshot the iteration never skips, whatever the live store holds (in
particular after a mapping written by an earlier iteration of the same
run). -/
theorem C6_skip_consults_snapshot_only (m : List (String × JVal))
    (w : World) (d : Desc) (s : LoopState) (v : PyVal) :
    (d.id = some v → pyTruthy v = true → hasKey m (pyStr v) = true →
      processOne (.jobj m) w d s = .ok { s with skip := s.skip + 1 }) ∧
    (d.id = some v → pyTruthy v = true → hasKey m (pyStr v) = false →
      ∀ r, processOne (.jobj m) w d s = .ok r → r.skip = s.skip) := by
  constructor
  · intro hid hv hkey
    simp [processOne, hid, hv, pyIn, hkey]
  · intro hid hv hkey r hr
    simp only [processOne, hid, hv, pyIn, hkey] at hr
    norm_num at hr
    repeat' split at hr
    all_goals first
      | (injection hr with h; subst h; rfl)
      | simp at hr

/-- Witness for C6: in a run whose snapshot maps course 7, a descriptor
with id 7 is skipped (counter goes to 1, trace stays empty); a descriptor
with id 8 is not skipped even though its processing writes a mapping. -/
theorem C6_skip_consults_snapshot_only_witness :
    processOne (.jobj [("7", .jnum 9)]) w0 ⟨some (.int 7)⟩
        ⟨0, 0, 0, .json (.jobj [("7", .jnum 9)]), []⟩ =
      .ok ⟨0, 0, 0 + 1, .json (.jobj [("7", .jnum 9)]), []⟩ ∧
    (⟨1, 0, 0, .json (.jobj [("7", .jnum 9), ("8", .jnum 7)]),
      [.syncEvt ⟨some (.int 8)⟩, .mapWriteEvt "8" (.jnum 7),
       .exportEvt 8]⟩ : LoopState).skip = 0 :=
  ⟨(C6_skip_consults_snapshot_only [("7", .jnum 9)] w0 ⟨some (.int 7)⟩
      ⟨0, 0, 0, .json (.jobj [("7", .jnum 9)]), []⟩ (.int 7)).1 rfl rfl rfl,
   (C6_skip_consults_snapshot_only [("7", .jnum 9)] w0 ⟨some (.int 8)⟩
      ⟨0, 0, 0, .json (.jobj [("7", .jnum 9)]), []⟩ (.int 8)).2 rfl rfl rfl
      _ rfl⟩

/-- C4: a descriptor that produces a step id has its mapping persisted
before the export request is fired; when the export request then fails
with an API error, the iteration completes with the failed counter
incremented and the mapping entry still present in the store — the trace
shows the mapping write strictly before the export POST, and nothing
rolls the entry back. -/
theorem C4_mapping_persisted_before_export (m cur : List (String × JVal))
    (w : World) (d : Desc) (s : LoopState) (v : PyVal) (k n : Int)
    (hid : d.id = some v) (hv : pyTruthy v = true)
    (hkey : hasKey m (pyStr v) = false)
    (hsync : w.sync d = some (.jnum k)) (hk : k ≠ 0)
    (hcur : load_mapping s.fcontent = .jobj cur) (hwf : w.writeFails = false)
    (hn : pyInt v = some n) (hexp : w.exportApi n = .exc) :
    ∃ r, processOne (.jobj m) w d s = .ok r ∧
      get_riseup_step_id v r.fcontent = .ok (some (.jnum k)) ∧
      r.trace = s.trace ++ [.syncEvt d, .mapWriteEvt (pyStr v) (.jnum k),
        .exportEvt n] ∧
      r.fail = s.fail + 1 ∧ r.succ = s.succ ∧ r.skip = s.skip := by
  have hk' : (k != 0) = true := by simpa using hk
  refine ⟨{ succ := s.succ, fail := s.fail + 1, skip := s.skip,
            fcontent := .json (.jobj (dictSet cur (pyStr v) (.jnum k))),
            trace := s.trace ++ [.syncEvt d, .mapWriteEvt (pyStr v) (.jnum k),
              .exportEvt n] }, ?_, ?_, rfl, rfl, rfl, rfl⟩
  · simp [processOne, hid, hv, pyIn, hkey, hsync, jTruthy, hk',
      add_or_update_mapping, hcur, save_mapping, hwf,
      request_scorm_export, hn, hexp]
  · simp [get_riseup_step_id, load_mapping, dictGet_dictSet]

/-- Witness for C4: course 5, snapshot empty, absent store file, a world
whose structure creation yields step 9 and whose export call raises. -/
theorem C4_mapping_persisted_before_export_witness :
    ∃ r, processOne (.jobj []) wExpFail ⟨some (.int 5)⟩
        ⟨0, 0, 0, .absent, []⟩ = .ok r ∧
      get_riseup_step_id (.int 5) r.fcontent = .ok (some (.jnum 9)) ∧
      r.trace = [] ++ [.syncEvt ⟨some (.int 5)⟩,
        .mapWriteEvt (pyStr (.int 5)) (.jnum 9), .exportEvt 5] ∧
      r.fail = 0 + 1 ∧ r.succ = 0 ∧ r.skip = 0 :=
  C4_mapping_persisted_before_export [] [] wExpFail ⟨some (.int 5)⟩
    ⟨0, 0, 0, .absent, []⟩ (.int 5) 9 5 rfl rfl rfl rfl (by decide)
    rfl rfl rfl rfl

/-- C2 (failing input): the claim says any exception for a single
descriptor is caught and the run always completes with its tally; but a
catalog entry whose id is the truthy non-numeric string "abc" makes
`request_scorm_export` raise `ValueError` at `int(course_id)` — outside
its `try`, and uncaught in `main`'s loop — aborting the whole run after
the structure was created and the mapping written. -/
theorem C2_single_descriptor_aborts_run :
    runSync (.json (.jobj [])) [⟨some (.str "abc")⟩] w0 =
      .aborted .valueError := rfl

/-- C5: a webhook request whose two required fields are present but whose
course id has no entry in the mapping store returns the 200 acknowledgment
("acknowledged_error" / "Mapping not found") and performs no action at
all — no base64 decode, no upload call. -/
theorem C5_unmapped_id_acknowledged (parsed : List (String × List String))
    (fc : FileContent) (w : WWorld) (cid zipb : String)
    (rest rest' : List String)
    (hid : lookupForm parsed "modules[0][id]" = some (cid :: rest))
    (hzip : lookupForm parsed "modules[0][zip]" = some (zipb :: rest'))
    (hmap : get_riseup_step_id (.str cid) fc = .ok none) :
    handle_learningbox_webhook parsed fc w =
      { status := 200, bstatus := "acknowledged_error",
        bmessage := "Mapping not found", events := [] } := by
  simp [handle_learningbox_webhook, hid, hzip, hmap]

/-- Witness for C5: the spec's example request for course 42 against an
empty mapping store. -/
theorem C5_unmapped_id_acknowledged_witness :
    handle_learningbox_webhook parsed0 (.json (.jobj [])) wUpOk =
      { status := 200, bstatus := "acknowledged_error",
        bmessage := "Mapping not found", events := [] } :=
  C5_unmapped_id_acknowledged parsed0 (.json (.jobj [])) wUpOk
    "42" "QUJD" [] [] rfl rfl rfl

/-- C7: a webhook request whose course id maps to a (nonzero) step id and
whose payload decodes performs exactly one upload call, to that step id,
with the decoded bytes; an upload failure yields the 502 response and an
upload success the 200 confirmation. -/
theorem C7_mapped_id_single_upload (parsed : List (String × List String))
    (fc : FileContent) (w : WWorld) (cid zipb : String)
    (rest rest' : List String) (k : Int) (bs : List Nat)
    (hid : lookupForm parsed "modules[0][id]" = some (cid :: rest))
    (hzip : lookupForm parsed "modules[0][zip]" = some (zipb :: rest'))
    (hmap : get_riseup_step_id (.str cid) fc = .ok (some (.jnum k)))
    (hk : k ≠ 0) (hdec : b64decode zipb = .ok bs) :
    (handle_learningbox_webhook parsed fc w).events =
      [.decodeEvt, .uploadEvt (.jnum k) bs ("lb_" ++ cid ++ "_scorm.zip")] ∧
    (w.upload (.jnum k) bs ("lb_" ++ cid ++ "_scorm.zip") = .exc →
      handle_learningbox_webhook parsed fc w =
        { status := 502, bstatus := "error",
          bmessage := "Failed to upload SCORM to RiseUp",
          events := [.decodeEvt,
            .uploadEvt (.jnum k) bs ("lb_" ++ cid ++ "_scorm.zip")] }) ∧
    (∀ resp, w.upload (.jnum k) bs ("lb_" ++ cid ++ "_scorm.zip") = .ok resp →
      handle_learningbox_webhook parsed fc w =
        { status := 200, bstatus := "success",
          bmessage := "SCORM uploaded to RiseUp",
          events := [.decodeEvt,
            .uploadEvt (.jnum k) bs ("lb_" ++ cid ++ "_scorm.zip")] }) := by
  have hk' : (k != 0) = true := by simpa using hk
  refine ⟨?_, ?_, ?_⟩
  · rcases hup : w.upload (.jnum k) bs ("lb_" ++ cid ++ "_scorm.zip")
      with resp | _ <;>
      simp [handle_learningbox_webhook, hid, hzip, hmap, jTruthy, hk',
        hdec, hup]
  · intro hup
    simp [handle_learningbox_webhook, hid, hzip, hmap, jTruthy, hk',
      hdec, hup]
  · intro resp hup
    simp [handle_learningbox_webhook, hid, hzip, hmap, jTruthy, hk',
      hdec, hup]

/-- Witness for C7: course 42 mapped to step 999, payload `QUJD` decoding
to the bytes `ABC`, against a world whose upload call raises: the response
is the 502 and the single upload call carried step 999 and those bytes. -/
theorem C7_mapped_id_single_upload_witness :
    handle_learningbox_webhook parsed0 (.json (.jobj [("42", .jnum 999)]))
        wUpExc =
      { status := 502, bstatus := "error",
        bmessage := "Failed to upload SCORM to RiseUp",
        events := [.decodeEvt,
          .uploadEvt (.jnum 999) [65, 66, 67] ("lb_" ++ "42" ++ "_scorm.zip")] } :=
  (C7_mapped_id_single_upload parsed0 (.json (.jobj [("42", .jnum 999)]))
    wUpExc "42" "QUJD" [] [] 999 [65, 66, 67] rfl rfl rfl (by decide)
    rfl).2.1 rfl

/-- C8 (counterexample): the claim says every payload that is not valid
base64 draws a client-error (4xx) response; but a resolved request whose
payload is the non-ASCII string "é" makes `base64.b64decode` raise a
plain `ValueError` (from its ASCII pre-encode), which the handler's
`except base64.binascii.Error` clause does not catch, so the outer
`except Exception` answers with the generic 500 server error — not a
4xx. -/
theorem C8_nonascii_payload_not_client_error :
    handle_learningbox_webhook parsedNonAscii
        (.json (.jobj [("42", .jnum 999)])) wUpOk =
      { status := 500, bstatus := "error",
        bmessage := "Internal server error", events := [.decodeEvt] } ∧
    ¬(400 ≤ (handle_learningbox_webhook parsedNonAscii
        (.json (.jobj [("42", .jnum 999)])) wUpOk).status ∧
      (handle_learningbox_webhook parsedNonAscii
        (.json (.jobj [("42", .jnum 999)])) wUpOk).status < 500) :=
  ⟨rfl, by decide⟩

/-- C8 (amended): a resolved request whose payload is ASCII but not valid
base64 fails the decode with `binascii.Error` and gets the 400 response
with no upload call; a payload containing a non-ASCII character also
fails the decode with no upload call, but its `ValueError` bypasses the
base64-specific clause and yields the generic 500 server error instead of
a 4xx. -/
theorem C8_invalid_base64_rejected (parsed : List (String × List String))
    (fc : FileContent) (w : WWorld) (cid zipb : String)
    (rest rest' : List String) (v : JVal)
    (hid : lookupForm parsed "modules[0][id]" = some (cid :: rest))
    (hzip : lookupForm parsed "modules[0][zip]" = some (zipb :: rest'))
    (hmap : get_riseup_step_id (.str cid) fc = .ok (some v))
    (hv : jTruthy v = true) :
    (b64decode zipb = .error .binasciiError →
      handle_learningbox_webhook parsed fc w =
        { status := 400, bstatus := "error",
          bmessage := "Invalid Base64 data", events := [.decodeEvt] }) ∧
    (b64decode zipb = .error .nonAscii →
      handle_learningbox_webhook parsed fc w =
        { status := 500, bstatus := "error",
          bmessage := "Internal server error", events := [.decodeEvt] }) := by
  constructor <;> intro hdec <;>
    simp [handle_learningbox_webhook, hid, hzip, hmap, hv, hdec]

/-- Witness for C8: course 42 mapped to step 999; the unpadded ASCII
payload `QQ` draws the 400, the non-ASCII payload "é" the 500. -/
theorem C8_invalid_base64_rejected_witness :
    handle_learningbox_webhook parsedBadZip (.json (.jobj [("42", .jnum 999)]))
        wUpOk =
      { status := 400, bstatus := "error",
        bmessage := "Invalid Base64 data", events := [.decodeEvt] } ∧
    handle_learningbox_webhook parsedNonAscii (.json (.jobj [("42", .jnum 999)]))
        wUpOk =
      { status := 500, bstatus := "error",
        bmessage := "Internal server error", events := [.decodeEvt] } :=
  ⟨(C8_invalid_base64_rejected parsedBadZip (.json (.jobj [("42", .jnum 999)]))
      wUpOk "42" "QQ" [] [] (.jnum 999) rfl rfl rfl rfl).1 rfl,
   (C8_invalid_base64_rejected parsedNonAscii (.json (.jobj [("42", .jnum 999)]))
      wUpOk "42" "é" [] [] (.jnum 999) rfl rfl rfl rfl).2 rfl⟩

end KwarkSync
